import Mathlib

/-!
Shallow embedding of the wagtailmenus menu-generation pipeline
(`wagtailmenus/models/menus.py`, `wagtailmenus/managers.py`,
`wagtailmenus/templatetags/menu_tags.py`).

Pages, menu items, sites and menus are modelled as plain records; the
Django ORM querysets become Lean lists (in queryset order), hooks become
lists of Lean functions, and the stateful render machinery becomes
explicit state passing.  Configuration constants from `app_settings`
(active/ancestor CSS classes, section root depth, template settings)
are carried in an `AppSettings` record, since their values are
deployment configuration rather than code.
-/

namespace Wagtailmenus

/-- Configuration values read from `wagtailmenus.app_settings`. -/
structure AppSettings where
  active_css : String
  ancestor_css : String
  section_root_depth : Nat
  site_specific_template_dirs : Bool
  default_flat_menu_template : String
deriving DecidableEq

/-- A Wagtail `Page` row, together with the behaviour of its specific
instance that `Menu.prime_menu_items` can observe.  `path` is the
treebeard materialised path, modelled as the list of path steps, so the
Python `page.path[:-page.steplen]` (dropping the final step) becomes
`path.dropLast`.  Method results that depend on the missing
`wagtailmenus/models/pages.py` and on Wagtail internals
(`has_submenu_items`, `show_in_menus_custom`, `relative_url`,
`get_full_url`, `full_url`) are carried as data fields giving the value
each call would return during the render pass being modelled. -/
structure Page where
  pk : Nat
  depth : Nat
  path : List Nat
  live : Bool
  expired : Bool
  show_in_menus : Bool
  title : String
  menu_text_attr : Option String
  has_submenu_items_attr : Bool
  has_submenu_items_result : Bool
  repeat_in_subnav : Bool
  has_get_full_url : Bool
  get_full_url_v : String
  full_url : String
  relative_url : String
  is_link_page : Bool
  link_show : Bool
  extra_classes : String
  link_menu_text : String
deriving DecidableEq

/-- A `MenuItem` row (modelled from the spec: `models/menuitems.py` is
not part of the sources; its fields are reconstructed from how
`menus.py` and `managers.py` use them: `link_page`, `link_url`,
`menu_text`, `allow_subnav`, plus the URL accessors `relative_url`,
`full_url` and the optional `get_full_url`). -/
structure MenuItemRec where
  link_page : Option Page
  link_url : String
  menu_text : String
  allow_subnav : Bool
  has_get_full_url : Bool
  get_full_url_v : String
  full_url : String
  relative_url : String
deriving DecidableEq

/-- An element of the raw menu-item list handled by
`Menu.prime_menu_items`: either a `MenuItem` instance or a `Page`. -/
inductive RawItem where
  | menuItem : MenuItemRec → RawItem
  | page : Page → RawItem
deriving DecidableEq

/-- The `ContextualVals` namedtuple built by
`Menu.format_contextual_vals` (the fields the modelled methods read). -/
structure ContextualVals where
  current_site : Nat
  current_level : Nat
  current_page : Option Page
  current_section_root_page : Option Page
  current_page_ancestor_ids : List Nat
deriving DecidableEq

/-- The `OptionVals` namedtuple fields read by the modelled methods. -/
structure OptionVals where
  apply_active_classes : Bool
  allow_repeating_parents : Bool
  use_absolute_page_urls : Bool
deriving DecidableEq

/-- The state of a `Menu` instance during one render pass:
instance attributes `max_levels`, `use_specific`, `root_page`,
`pages_for_display`, plus the contextual/option values stored by
`render_init` and the request path. -/
structure MenuState where
  max_levels : Nat
  use_specific : Nat
  root_page : Option Page
  cvals : ContextualVals
  opts : OptionVals
  pages_for_display : List Page
  request_path : String
  settings : AppSettings
deriving DecidableEq

/-- Embeds `Menu.page_has_children`: the page's path is a key of
`page_children_dict`, whose keys are `q.path[:-q.steplen]` for each `q`
in `pages_for_display`. -/
def page_has_children (m : MenuState) (p : Page) : Bool :=
  m.pages_for_display.any (fun q => q.path.dropLast == p.path)

/-- The `has_children_in_menu` computation in `Menu.prime_menu_items`
(menus.py lines 320-356): the flag can only be set when the current
level is below `max_levels` (`not stop_at_this_level`), the page is at
least `SECTION_ROOT_DEPTH` deep, and — for `MenuItem`-backed items —
`allow_subnav` is set; the value then comes from the specific page's
`has_submenu_items` when `use_specific` is truthy and the attribute
exists, and from `page_has_children` otherwise. -/
def has_children_flag (m : MenuState) (p : Page) (mi : Option MenuItemRec) : Bool :=
  if (!decide (m.max_levels ≤ m.cvals.current_level)) &&
      decide (m.settings.section_root_depth ≤ p.depth) &&
      (match mi with
       | none => true
       | some it => it.allow_subnav) then
    if m.use_specific != 0 && p.has_submenu_items_attr then
      p.has_submenu_items_result
    else
      page_has_children m p
  else
    false

/-- The `active_class` computation in `Menu.prime_menu_items`
(menus.py lines 358-375), given the already-computed
`has_children_in_menu` flag `hc`. -/
def active_cls_for (m : MenuState) (p : Page) (hc : Bool) : String :=
  match m.cvals.current_page with
  | some cp =>
      if p.pk = cp.pk then
        if m.opts.allow_repeating_parents && m.use_specific != 0 && hc &&
            p.repeat_in_subnav then
          m.settings.ancestor_css
        else
          m.settings.active_css
      else if p.pk ∈ m.cvals.current_page_ancestor_ids then
        m.settings.ancestor_css
      else
        ""
  | none =>
      if p.pk ∈ m.cvals.current_page_ancestor_ids then
        m.settings.ancestor_css
      else
        ""

/-- The `href` computation at the end of the `prime_menu_items` loop
(menus.py lines 391-403): absolute URL (via `get_full_url` when the
item has it, `full_url` otherwise) when `use_absolute_page_urls` is
set, otherwise `relative_url` against the current site. -/
def item_href (m : MenuState) : RawItem → String
  | .menuItem it =>
      if m.opts.use_absolute_page_urls then
        if it.has_get_full_url then it.get_full_url_v else it.full_url
      else
        it.relative_url
  | .page p =>
      if m.opts.use_absolute_page_urls then
        if p.has_get_full_url then p.get_full_url_v else p.full_url
      else
        p.relative_url

/-- A menu item as it leaves `prime_menu_items`: the underlying object
plus the attributes the method sets on it.  `active_cls` and
`has_children_in_menu` are `Option`s because the corresponding
attributes are only set on some control paths. -/
structure PrimedItem where
  source : RawItem
  text : String
  href : String
  active_cls : Option String
  has_children_in_menu : Option Bool
deriving DecidableEq

/-- One iteration of the `Menu.prime_menu_items` loop (menus.py lines
274-404).  Returns `none` exactly when the iteration appends nothing
(a link page whose `show_in_menus_custom` is false). -/
def prime_one (m : MenuState) : RawItem → Option PrimedItem
  | .menuItem it =>
      match it.link_page with
      | some p =>
          let hc := has_children_flag m p (some it)
          some
            { source := .menuItem it
              text := it.menu_text
              href := item_href m (.menuItem it)
              active_cls :=
                if m.opts.apply_active_classes then
                  some (active_cls_for m p hc)
                else
                  none
              has_children_in_menu := some hc }
      | none =>
          some
            { source := .menuItem it
              text := it.menu_text
              href := item_href m (.menuItem it)
              active_cls :=
                if m.opts.apply_active_classes && it.link_url == m.request_path
                then some m.settings.active_css
                else none
              has_children_in_menu := none }
  | .page p =>
      if p.is_link_page then
        if p.link_show then
          some
            { source := .page p
              text := p.link_menu_text
              href :=
                if m.opts.use_absolute_page_urls then p.get_full_url_v
                else p.relative_url
              active_cls := some p.extra_classes
              has_children_in_menu := none }
        else
          none
      else
        let hc := has_children_flag m p none
        some
          { source := .page p
            text := p.menu_text_attr.getD p.title
            href := item_href m (.page p)
            active_cls :=
              if m.opts.apply_active_classes then
                some (active_cls_for m p hc)
              else
                none
            has_children_in_menu := some hc }

/-- Embeds `Menu.prime_menu_items` (menus.py lines 258-406): the loop carries
no state between iterations and appends at most one primed item per raw
item, so it is a `filterMap`. -/
def prime_menu_items (m : MenuState) (items : List RawItem) : List PrimedItem :=
  items.filterMap (prime_one m)

/-- The keyword-argument record built by
`Menu.get_menu_item_modify_hook_kwargs` (menus.py lines 232-249) and
passed to the menu-item modification hooks.  The `menu_instance` and
`request` entries carry no modelled data and are omitted. -/
structure ModifyHookKwargs where
  parent_page : Option Page
  current_site : Nat
  current_page : Option Page
  current_page_ancestor_ids : List Nat
  current_level : Nat
  max_levels : Nat
  use_specific : Nat
  apply_active_classes : Bool
  allow_repeating_parents : Bool
  use_absolute_page_urls : Bool
deriving DecidableEq

/-- Embeds `Menu.get_menu_item_modify_hook_kwargs`, exactly as written in the
source: note that the `use_specific` entry is populated from
`self.max_levels` (menus.py line 245), the same attribute as the
`max_levels` entry, and not from `self.use_specific`. -/
def get_menu_item_modify_hook_kwargs (m : MenuState) : ModifyHookKwargs :=
  { parent_page := m.root_page
    current_site := m.cvals.current_site
    current_page := m.cvals.current_page
    current_page_ancestor_ids := m.cvals.current_page_ancestor_ids
    current_level := m.cvals.current_level
    max_levels := m.max_levels
    use_specific := m.max_levels
    apply_active_classes := m.opts.apply_active_classes
    allow_repeating_parents := m.opts.allow_repeating_parents
    use_absolute_page_urls := m.opts.use_absolute_page_urls }

/-- A `Menu` together with its registered hook functions.  The
`menus_modify_raw_menu_items` and `menus_modify_primed_menu_items`
hook registries become lists of functions (in registration order), each
receiving the item list and the hook kwargs; `modify_menu_items` is the
(overridable) instance method, the identity on the base `Menu` class. -/
structure HookedMenu where
  state : MenuState
  raw_hooks : List (List RawItem → ModifyHookKwargs → List RawItem)
  primed_hooks : List (List PrimedItem → ModifyHookKwargs → List PrimedItem)
  modify_menu_items : List PrimedItem → List PrimedItem

/-- Embeds `Menu.get_primed_menu_items` (menus.py lines 222-230), with the
raw item list (`self.get_raw_menu_items()`) supplied as an argument:
apply each `menus_modify_raw_menu_items` hook in turn, prime the
result, pass it through `modify_menu_items`, then apply each
`menus_modify_primed_menu_items` hook in turn. -/
def get_primed_menu_items (hm : HookedMenu) (raw : List RawItem) : List PrimedItem :=
  let hook_kwargs := get_menu_item_modify_hook_kwargs hm.state
  let items := hm.raw_hooks.foldl (fun acc h => h acc hook_kwargs) raw
  let items := hm.modify_menu_items (prime_menu_items hm.state items)
  hm.primed_hooks.foldl (fun acc h => h acc hook_kwargs) items

/-- The filter applied by `Menu.get_base_page_queryset` (menus.py lines
106-108): `live=True, expired=False, show_in_menus=True`. -/
def base_page_filter (p : Page) : Bool :=
  p.live && !p.expired && p.show_in_menus

/-- A `MenuWithMenuItems` instance (main or flat menu) together with
the database rows and hooks its queryset methods read: `items` is the
menu's ordered `MenuItem` set, `all_pages` the `Page` table (in
queryset order). -/
structure MenuWithItems where
  items : List MenuItemRec
  all_pages : List Page
  page_hooks : List (List Page → List Page)
  menuitem_hooks : List (List MenuItemRec → List MenuItemRec)
  use_specific : Nat
  max_levels : Nat
  settings : AppSettings

/-- Embeds `Menu.get_base_page_queryset` (menus.py lines 106-114): filter the
page table on the three visibility conditions, then let the
`menus_modify_base_page_queryset` hooks modify the queryset. -/
def get_base_page_queryset (m : MenuWithItems) : List Page :=
  m.page_hooks.foldl (fun qs h => h qs) (m.all_pages.filter base_page_filter)

/-- Embeds `MenuItemManager.for_display` (managers.py lines 7-13): keep items
with no link page, or whose link page is live, unexpired and shown in
menus. -/
def for_display (items : List MenuItemRec) : List MenuItemRec :=
  items.filter (fun it =>
    match it.link_page with
    | none => true
    | some p => p.live && !p.expired && p.show_in_menus)

/-- Embeds `MenuWithMenuItems.get_base_menuitem_queryset` (menus.py lines
681-686): `for_display` plus the `menus_modify_base_menuitem_queryset`
hooks. -/
def get_base_menuitem_queryset (m : MenuWithItems) : List MenuItemRec :=
  m.menuitem_hooks.foldl (fun qs h => h qs) (for_display m.items)

/-- Embeds `MenuWithMenuItems.top_level_items` (menus.py lines 688-723):
restrict `get_base_page_queryset` to the pages linked by the displayed
menu items, then keep every item without a link page and every item
whose linked page survived that restriction (supplementing `link_page`
with the fetched page).  `link_page_id` of a stored page row is its
positive primary key, so the `if not item.link_page_id` check holds
exactly when `link_page` is `none`. -/
def top_level_items (m : MenuWithItems) : List MenuItemRec :=
  let menu_items := get_base_menuitem_queryset m
  let top_level_pages := (get_base_page_queryset m).filter
    (fun p => menu_items.any (fun it => it.link_page.any (fun lp => lp.pk == p.pk)))
  menu_items.filterMap (fun it =>
    match it.link_page with
    | none => some it
    | some lp =>
        match top_level_pages.find? (fun q => q.pk == lp.pk) with
        | some q => some { it with link_page := some q }
        | none => none)

/-- Decides whether `pre` is an initial segment of `full` (the
`path__startswith` queryset condition on materialised paths). -/
def pathStarts : List Nat → List Nat → Bool
  | [], _ => true
  | _ :: _, [] => false
  | a :: pre, b :: full => a == b && pathStarts pre full

/-- Embeds `MenuWithMenuItems.get_pages_for_display` (menus.py lines 725-758):
empty when `max_levels` is 1; otherwise the union over the top-level
items (those with a link page, `allow_subnav` set and sufficient
depth) of the depth/path branch querysets, intersected with
`get_base_page_queryset`. -/
def pages_for_display_list (m : MenuWithItems) : List Page :=
  if m.max_levels = 1 then
    []
  else
    let tli := top_level_items m
    let branch : Page → Bool := fun p =>
      tli.any (fun it =>
        match it.link_page with
        | some lp =>
            it.allow_subnav &&
            decide (m.settings.section_root_depth ≤ lp.depth) &&
            decide (lp.depth < p.depth) &&
            decide (p.depth < lp.depth + m.max_levels) &&
            pathStarts lp.path p.path
        | none => false)
    (m.all_pages.filter branch).filter
      (fun p => decide (p ∈ get_base_page_queryset m))

/-- A Wagtail `Site` row (the fields read by the modelled code). -/
structure SiteRec where
  pk : Nat
  hostname : String
  is_default_site : Bool
deriving DecidableEq

/-- An `AbstractFlatMenu` row (the fields read by `get_for_site` and
template resolution). -/
structure FlatMenuRec where
  site : SiteRec
  handle : String
  title : String
deriving DecidableEq

/-- Embeds `AbstractFlatMenu.get_template_names` (menus.py lines 997-1024):
seven hostname-based names when site-specific template directories are
enabled and a current site exists, then six names based only on the
handle or generic flat-menu defaults, then the configured
`DEFAULT_FLAT_MENU_TEMPLATE` (appended only when non-empty, mirroring
the `if lstn:` truthiness check). -/
def flat_menu_template_names (s : AppSettings) (site : Option SiteRec)
    (handle : String) : List String :=
  let host_names : List String :=
    match site with
    | some st =>
        if s.site_specific_template_dirs then
          [ "menus/" ++ st.hostname ++ "/flat/" ++ handle ++ "/menu.html",
            "menus/" ++ st.hostname ++ "/flat/" ++ handle ++ ".html",
            "menus/" ++ st.hostname ++ "/" ++ handle ++ "/menu.html",
            "menus/" ++ st.hostname ++ "/" ++ handle ++ ".html",
            "menus/" ++ st.hostname ++ "/flat/menu.html",
            "menus/" ++ st.hostname ++ "/flat/default.html",
            "menus/" ++ st.hostname ++ "/flat_menu.html" ]
        else
          []
    | none => []
  let base := host_names ++
    [ "menus/flat/" ++ handle ++ "/menu.html",
      "menus/flat/" ++ handle ++ ".html",
      "menus/" ++ handle ++ "/menu.html",
      "menus/" ++ handle ++ ".html",
      "menus/flat/default.html",
      "menus/flat/menu.html" ]
  if s.default_flat_menu_template ≠ "" then
    base ++ [s.default_flat_menu_template]
  else
    base

/-- Decides whether `needle` starts `hay` (character lists). -/
def listStarts : List Char → List Char → Bool
  | [], _ => true
  | _ :: _, [] => false
  | a :: ns, b :: hs => a == b && listStarts ns hs

/-- Decides whether `needle` occurs contiguously inside `hay`. -/
def listHasSub (needle : List Char) : List Char → Bool
  | [] => needle.isEmpty
  | b :: hs => listStarts needle (b :: hs) || listHasSub needle hs

/-- Decides whether the string `needle` occurs inside `hay`; used to
formalise a template name being qualified by (mentioning) a handle or
hostname. -/
def strHasSub (needle hay : String) : Bool :=
  listHasSub needle.toList hay.toList

/-- Embeds `AbstractFlatMenu.get_for_site` (menus.py lines 937-949): first
menu matching the handle for the given site; if none and
`fall_back_to_default_site_menus` is set and the site is not the
default site, first menu matching the handle for the default site. -/
def get_for_site (menus : List FlatMenuRec) (handle : String) (site : SiteRec)
    (fall_back : Bool) : Option FlatMenuRec :=
  let menu := menus.find? (fun m => m.handle == handle && m.site.pk == site.pk)
  if menu.isNone && fall_back && !site.is_default_site then
    menus.find? (fun m => m.handle == handle && m.site.is_default_site)
  else
    menu

/-- The `flat_menu` template tag (menu_tags.py lines 47-82), abstracted
over the rendering of a found menu: when `get_for_site` finds nothing,
the tag returns the empty string without rendering. -/
def flat_menu_tag (menus : List FlatMenuRec) (handle : String) (site : SiteRec)
    (fall_back : Bool) (render_menu : FlatMenuRec → String) : String :=
  match get_for_site menus handle site fall_back with
  | none => ""
  | some m => render_menu m

/-- Modelled from the spec: the `USE_SPECIFIC_TOP_LEVEL` constant of
the missing `app_settings` module.  The specificity options form an
increasing scale (off, auto, top-level, always); only the threshold
comparison in `set_use_specific` depends on it. -/
def use_specific_top_level : Nat := 2

/-- The attribute state of a `MenuWithMenuItems` instance that
`set_max_levels` / `set_use_specific` read and write: the two option
attributes and the three cached properties (`pages_for_display`,
`page_children_dict`, `top_level_items`), each `none` when the cache
has been cleared. -/
structure RenderState where
  max_levels : Nat
  use_specific : Nat
  pages_cache : Option (List Page)
  children_cache : Option (List Page)
  top_cache : Option (List MenuItemRec)
deriving DecidableEq

/-- Embeds `Menu.clear_page_cache` (menus.py lines 87-95): drop the cached
`pages_for_display` and `page_children_dict` values. -/
def clear_page_cache (st : RenderState) : RenderState :=
  { st with pages_cache := none, children_cache := none }

/-- Embeds `Menu.set_max_levels` (menus.py lines 116-123): store the supplied
value and clear the page caches, but only when it differs from the
current one. -/
def set_max_levels (st : RenderState) (v : Nat) : RenderState :=
  if st.max_levels ≠ v then
    clear_page_cache { st with max_levels := v }
  else
    st

/-- Embeds `Menu.set_use_specific` (menus.py lines 125-141): store the
supplied value when it differs, clearing the page caches and the
cached `top_level_items` when specificity rises across the
`USE_SPECIFIC_TOP_LEVEL` threshold. -/
def set_use_specific (st : RenderState) (v : Nat) : RenderState :=
  if st.use_specific ≠ v then
    let st' :=
      if use_specific_top_level ≤ v && st.use_specific < use_specific_top_level
      then { clear_page_cache st with top_cache := none }
      else st
    { st' with use_specific := v }
  else
    st

/-- The option-storing part of `MenuWithMenuItems.render_init`
(menus.py lines 782-785), exactly as written in the source: it calls
`set_max_levels` twice, the second time with the `use_specific` option
value. -/
def render_init (st : RenderState) (max_levels use_specific : Nat) : RenderState :=
  set_max_levels (set_max_levels st max_levels) use_specific

/-- The state of a `SectionMenu` instance read by its `render` method. -/
structure SectionMenuState where
  cvals : ContextualVals
  root_page : Option Page
deriving DecidableEq

/-- Embeds `SectionMenu.render` (menus.py lines 592-600), abstracted over the
context-building/template machinery `render_with` (which stands for
`render_to_template(get_context_data(), get_template())` on the
updated instance): with no current section root page the method
returns the empty string immediately; otherwise the section root
becomes the menu's `root_page` before rendering. -/
def section_menu_render (sm : SectionMenuState)
    (render_with : SectionMenuState → String) : SectionMenuState × String :=
  match sm.cvals.current_section_root_page with
  | none => (sm, "")
  | some root =>
      let sm' := { sm with root_page := some root }
      (sm', render_with sm')

/-! Sample data used by witnesses and counterexamples. -/

/-- Sample configuration with distinct active and ancestor classes. -/
def sampleSettings : AppSettings :=
  { active_css := "active"
    ancestor_css := "ancestor"
    section_root_depth := 2
    site_specific_template_dirs := true
    default_flat_menu_template := "menus/flat_menu.html" }

/-- Sample contextual values for a first-level render with no current
page. -/
def sampleCVals : ContextualVals :=
  { current_site := 1
    current_level := 1
    current_page := none
    current_section_root_page := none
    current_page_ancestor_ids := [] }

/-- Sample option values. -/
def sampleOpts : OptionVals :=
  { apply_active_classes := true
    allow_repeating_parents := true
    use_absolute_page_urls := false }

/-- Sample menu state. -/
def sampleState : MenuState :=
  { max_levels := 2
    use_specific := 1
    root_page := none
    cvals := sampleCVals
    opts := sampleOpts
    pages_for_display := []
    request_path := "/"
    settings := sampleSettings }

/-- A sample primed-stage hook (the identity). -/
def sampleHook : List PrimedItem → ModifyHookKwargs → List PrimedItem :=
  fun items _ => items

/-- A sample menu with one hook registered at the primed stage. -/
def sampleHookedMenu : HookedMenu :=
  { state := sampleState
    raw_hooks := []
    primed_hooks := [sampleHook]
    modify_menu_items := id }

/-- C1: for every menu and raw item list, `get_primed_menu_items`
applies the two hook stages in a fixed order — all
`menus_modify_raw_menu_items` hooks on the raw list first, then
`prime_menu_items` followed by `modify_menu_items`, then all
`menus_modify_primed_menu_items` hooks — and the returned value is the
output of the last hook of the second stage. -/
theorem get_primed_menu_items_two_stage (hm : HookedMenu) (raw : List RawItem)
    (hs : List (List PrimedItem → ModifyHookKwargs → List PrimedItem))
    (h : List PrimedItem → ModifyHookKwargs → List PrimedItem)
    (hhooks : hm.primed_hooks = hs ++ [h]) :
    get_primed_menu_items hm raw =
      h (hs.foldl (fun acc g => g acc (get_menu_item_modify_hook_kwargs hm.state))
          (hm.modify_menu_items (prime_menu_items hm.state
            (hm.raw_hooks.foldl
              (fun acc g => g acc (get_menu_item_modify_hook_kwargs hm.state)) raw))))
        (get_menu_item_modify_hook_kwargs hm.state) := by
  simp [get_primed_menu_items, hhooks, List.foldl_append]

/-- Witness for C1 at a concrete menu whose second hook stage holds a
single hook. -/
theorem get_primed_menu_items_two_stage_witness :
    get_primed_menu_items sampleHookedMenu [] = [] := by
  have h := get_primed_menu_items_two_stage sampleHookedMenu [] [] sampleHook rfl
  simpa [sampleHookedMenu, sampleHook, prime_menu_items] using h

/-- C10: the kwargs record built by `get_menu_item_modify_hook_kwargs`
maps `use_specific` to the menu's `max_levels` attribute (the same
value as the `max_levels` entry) and not to the menu's `use_specific`
attribute; precisely this record is handed to the hooks of both stages
of `get_primed_menu_items`. -/
theorem hook_kwargs_use_specific_is_max_levels (m : MenuState)
    (hne : m.max_levels ≠ m.use_specific) :
    (get_menu_item_modify_hook_kwargs m).use_specific = m.max_levels ∧
    (get_menu_item_modify_hook_kwargs m).use_specific =
      (get_menu_item_modify_hook_kwargs m).max_levels ∧
    (get_menu_item_modify_hook_kwargs m).use_specific ≠ m.use_specific ∧
    (∀ (f : ModifyHookKwargs → List RawItem) raw,
      get_primed_menu_items
        { state := m, raw_hooks := [fun _ kw => f kw], primed_hooks := [],
          modify_menu_items := id } raw =
        prime_menu_items m (f (get_menu_item_modify_hook_kwargs m))) ∧
    (∀ (f : ModifyHookKwargs → List PrimedItem) raw,
      get_primed_menu_items
        { state := m, raw_hooks := [], primed_hooks := [fun _ kw => f kw],
          modify_menu_items := id } raw =
        f (get_menu_item_modify_hook_kwargs m)) := by
  refine ⟨rfl, rfl, hne, ?_, ?_⟩
  · intro f raw
    simp [get_primed_menu_items]
  · intro f raw
    simp [get_primed_menu_items]

/-- Witness for C10 at the sample menu state (whose `max_levels` is 2
and `use_specific` is 1). -/
theorem hook_kwargs_use_specific_is_max_levels_witness :
    (get_menu_item_modify_hook_kwargs sampleState).use_specific = 2 ∧
    (get_menu_item_modify_hook_kwargs sampleState).use_specific ≠
      sampleState.use_specific := by
  have h := hook_kwargs_use_specific_is_max_levels sampleState (by decide)
  exact ⟨h.1.trans rfl, h.2.2.1⟩

/-- A render state holding populated caches, as left by a previous
render pass with `max_levels = 2` and `use_specific = 1`. -/
def renderState0 : RenderState :=
  { max_levels := 2
    use_specific := 1
    pages_cache := some []
    children_cache := some []
    top_cache := some [] }

/-- C8 (divergence): `MenuWithMenuItems.render_init` called with
`max_levels = 3` and `use_specific = 0` leaves `max_levels = 0` (the
`use_specific` option value, because line 785 passes it to
`set_max_levels`) and leaves the `use_specific` attribute untouched at
its old value 1 — whereas routing the second value through the
`set_use_specific` method the class defines for this purpose would
store it in `use_specific`. -/
theorem render_init_divergence :
    (render_init renderState0 3 0).max_levels = 0 ∧
    (render_init renderState0 3 0).use_specific = 1 ∧
    ¬((render_init renderState0 3 0).max_levels = 3 ∧
      (render_init renderState0 3 0).use_specific = 0) ∧
    (set_use_specific (set_max_levels renderState0 3) 0).max_levels = 3 ∧
    (set_use_specific (set_max_levels renderState0 3) 0).use_specific = 0 := by
  decide

/-- A section-menu state whose context carries no section root. -/
def sectionStateNoRoot : SectionMenuState :=
  { cvals := sampleCVals, root_page := none }

/-- C9: when the contextual values carry no current section root page,
`SectionMenu.render` returns the empty string and its result does not
depend on the context-building/template machinery at all; when a
section root page is present, it becomes the menu's `root_page` before
the machinery renders the updated instance. -/
theorem section_menu_render_root_cases (sm : SectionMenuState) :
    (sm.cvals.current_section_root_page = none →
      ∀ f g : SectionMenuState → String,
        section_menu_render sm f = (sm, "") ∧
        section_menu_render sm f = section_menu_render sm g) ∧
    (∀ root f, sm.cvals.current_section_root_page = some root →
      (section_menu_render sm f).1.root_page = some root ∧
      (section_menu_render sm f).2 = f { sm with root_page := some root }) := by
  constructor
  · intro h f g
    simp [section_menu_render, h]
  · intro root f h
    simp [section_menu_render, h]

/-- A sample section root page. -/
def sectionRootPage : Page :=
  { pk := 9, depth := 2, path := [1, 9], live := true, expired := false
    show_in_menus := true, title := "Section", menu_text_attr := none
    has_submenu_items_attr := false, has_submenu_items_result := false
    repeat_in_subnav := false, has_get_full_url := false, get_full_url_v := ""
    full_url := "", relative_url := "/section/", is_link_page := false
    link_show := false, extra_classes := "", link_menu_text := "" }

/-- A section-menu state whose context carries a section root. -/
def sectionStateWithRoot : SectionMenuState :=
  { cvals := { sampleCVals with current_section_root_page := some sectionRootPage }
    root_page := none }

/-- Witness for C9 at concrete states for both branches. -/
theorem section_menu_render_root_cases_witness :
    (section_menu_render sectionStateNoRoot (fun _ => "A") =
        (sectionStateNoRoot, "") ∧
      section_menu_render sectionStateNoRoot (fun _ => "A") =
        section_menu_render sectionStateNoRoot (fun _ => "B")) ∧
    ((section_menu_render sectionStateWithRoot (fun _ => "C")).1.root_page =
        some sectionRootPage ∧
      (section_menu_render sectionStateWithRoot (fun _ => "C")).2 =
        (fun _ : SectionMenuState => "C")
          { sectionStateWithRoot with root_page := some sectionRootPage }) :=
  ⟨(section_menu_render_root_cases sectionStateNoRoot).1 rfl _ _,
   (section_menu_render_root_cases sectionStateWithRoot).2 sectionRootPage _ rfl⟩

/-- A page whose specific instance repeats itself in sub-navigation
and reports sub-menu items. -/
def repeatingPage : Page :=
  { pk := 5, depth := 3, path := [1, 9, 5], live := true, expired := false
    show_in_menus := true, title := "Repeat", menu_text_attr := none
    has_submenu_items_attr := true, has_submenu_items_result := true
    repeat_in_subnav := true, has_get_full_url := false, get_full_url_v := ""
    full_url := "http://x/p/", relative_url := "/p/", is_link_page := false
    link_show := false, extra_classes := "", link_menu_text := "" }

/-- A menu item linking to `repeatingPage` with `allow_subnav` set. -/
def repeatItem : MenuItemRec :=
  { link_page := some repeatingPage, link_url := "", menu_text := "Repeat"
    allow_subnav := true, has_get_full_url := false, get_full_url_v := ""
    full_url := "http://x/p/", relative_url := "/p/" }

/-- The sample menu state rendered with `repeatingPage` as the current
page. -/
def currentPageState : MenuState :=
  { sampleState with
      cvals := { sampleCVals with current_page := some repeatingPage } }

/-- Counterexample to C2 as stated: with active classes applied and
the current page set, an item whose linked page has the current page's
pk receives the ancestor class, not the active class, because the page
repeats itself in the sub-navigation (`allow_repeating_parents`,
truthy `use_specific`, `has_children_in_menu` and `repeat_in_subnav`
all hold). -/
theorem prime_active_cls_counterexample :
    currentPageState.opts.apply_active_classes = true ∧
    currentPageState.cvals.current_page = some repeatingPage ∧
    repeatItem.link_page = some repeatingPage ∧
    (prime_one currentPageState (RawItem.menuItem repeatItem)).map
        PrimedItem.active_cls =
      some (some currentPageState.settings.ancestor_css) ∧
    currentPageState.settings.ancestor_css ≠
      currentPageState.settings.active_css := by
  decide

/-- C2 (amended): with `apply_active_classes` enabled and a current
page set, an item whose linked page has the current page's pk gets the
active class — except that it gets the ancestor class instead when
`allow_repeating_parents` is enabled, `use_specific` is truthy, the
item is flagged as having children in the menu, and the specific
page's `repeat_in_subnav` flag is set; otherwise a page whose pk is
among the current-page ancestor ids gets the ancestor class, and any
other page gets the empty string. -/
theorem prime_active_cls_cases (m : MenuState) (mi : MenuItemRec) (p cp : Page)
    (hlp : mi.link_page = some p) (hac : m.opts.apply_active_classes = true)
    (hcp : m.cvals.current_page = some cp) :
    (p.pk = cp.pk →
      (prime_one m (.menuItem mi)).map PrimedItem.active_cls =
        some (some
          (if m.opts.allow_repeating_parents && m.use_specific != 0 &&
              has_children_flag m p (some mi) && p.repeat_in_subnav
           then m.settings.ancestor_css
           else m.settings.active_css))) ∧
    (p.pk ≠ cp.pk → p.pk ∈ m.cvals.current_page_ancestor_ids →
      (prime_one m (.menuItem mi)).map PrimedItem.active_cls =
        some (some m.settings.ancestor_css)) ∧
    (p.pk ≠ cp.pk → p.pk ∉ m.cvals.current_page_ancestor_ids →
      (prime_one m (.menuItem mi)).map PrimedItem.active_cls =
        some (some "")) := by
  refine ⟨?_, ?_, ?_⟩
  · intro hpk
    simp [prime_one, hlp, hac, active_cls_for, hcp, hpk]
  · intro hpk hanc
    simp [prime_one, hlp, hac, active_cls_for, hcp, hpk, hanc]
  · intro hpk hanc
    simp [prime_one, hlp, hac, active_cls_for, hcp, hpk, hanc]

/-- Witness for C2 (amended) at the repeating-page input, where the
exception fires and the ancestor class is produced. -/
theorem prime_active_cls_cases_witness :
    (prime_one currentPageState (RawItem.menuItem repeatItem)).map
        PrimedItem.active_cls =
      some (some currentPageState.settings.ancestor_css) := by
  have h := (prime_active_cls_cases currentPageState repeatItem repeatingPage
    repeatingPage rfl rfl rfl).1 rfl
  exact h.trans (by decide)

/-- C4: an item with a linked page is flagged `has_children_in_menu`
only when the current level is strictly below `max_levels`, the page's
depth is at least the configured section-root depth, and — for
`MenuItem`-backed items — `allow_subnav` is set; when any of these
fails the flag is false. -/
theorem has_children_flag_limits (m : MenuState) (mi : MenuItemRec) (p q : Page)
    (hlp : mi.link_page = some p) (hq : q.is_link_page = false) :
    (∀ pi, prime_one m (.menuItem mi) = some pi →
      pi.has_children_in_menu = some (has_children_flag m p (some mi))) ∧
    (has_children_flag m p (some mi) = true →
      m.cvals.current_level < m.max_levels ∧
      m.settings.section_root_depth ≤ p.depth ∧
      mi.allow_subnav = true) ∧
    (¬(m.cvals.current_level < m.max_levels) ∨
        ¬(m.settings.section_root_depth ≤ p.depth) ∨ mi.allow_subnav = false →
      has_children_flag m p (some mi) = false) ∧
    (∀ pi, prime_one m (.page q) = some pi →
      pi.has_children_in_menu = some (has_children_flag m q none)) ∧
    (has_children_flag m q none = true →
      m.cvals.current_level < m.max_levels ∧
      m.settings.section_root_depth ≤ q.depth) := by
  refine ⟨?_, ?_, ?_, ?_, ?_⟩
  · intro pi hpi
    simp [prime_one, hlp] at hpi
    subst hpi
    rfl
  · intro hflag
    unfold has_children_flag at hflag
    split at hflag
    case isTrue hcond =>
      simp only [Bool.and_eq_true, Bool.not_eq_true', decide_eq_false_iff_not,
        decide_eq_true_eq] at hcond
      exact ⟨Nat.not_le.mp hcond.1.1, hcond.1.2, hcond.2⟩
    case isFalse hcond =>
      exact absurd hflag (by simp)
  · intro hdisj
    unfold has_children_flag
    split
    case isTrue hcond =>
      exfalso
      simp only [Bool.and_eq_true, Bool.not_eq_true', decide_eq_false_iff_not,
        decide_eq_true_eq] at hcond
      rcases hdisj with h | h | h
      · exact h (Nat.not_le.mp hcond.1.1)
      · exact h hcond.1.2
      · rw [hcond.2] at h
        exact absurd h (by simp)
    case isFalse hcond => rfl
  · intro pi hpi
    simp [prime_one, hq] at hpi
    subst hpi
    rfl
  · intro hflag
    unfold has_children_flag at hflag
    split at hflag
    case isTrue hcond =>
      simp only [Bool.and_eq_true, Bool.not_eq_true', decide_eq_false_iff_not,
        decide_eq_true_eq] at hcond
      exact ⟨Nat.not_le.mp hcond.1.1, hcond.1.2⟩
    case isFalse hcond =>
      exact absurd hflag (by simp)

/-- Witness for C4: at the sample state the repeating item's flag is
true and the three enabling conditions hold. -/
theorem has_children_flag_limits_witness :
    sampleState.cvals.current_level < sampleState.max_levels ∧
    sampleState.settings.section_root_depth ≤ repeatingPage.depth ∧
    repeatItem.allow_subnav = true :=
  (has_children_flag_limits sampleState repeatItem repeatingPage
    sectionRootPage rfl rfl).2.1 (by decide)

/-- Relates the output of one priming iteration to its input: the
primed item wraps the processed raw item, and — except for link-page
specials — its `href` is `item_href`. -/
theorem prime_one_source_href (m : MenuState) (a : RawItem) (pi : PrimedItem)
    (hpa : prime_one m a = some pi) :
    pi.source = a ∧
    ((match a with
      | RawItem.page p => p.is_link_page = false
      | RawItem.menuItem _ => True) → pi.href = item_href m a) := by
  cases a with
  | menuItem it =>
      cases hlp : it.link_page with
      | some p =>
          simp [prime_one, hlp] at hpa
          subst hpa
          exact ⟨rfl, fun _ => rfl⟩
      | none =>
          simp [prime_one, hlp] at hpa
          subst hpa
          exact ⟨rfl, fun _ => rfl⟩
  | page p =>
      by_cases hl : p.is_link_page = true
      · by_cases hshow : p.link_show = true
        · simp [prime_one, hl, hshow] at hpa
          subst hpa
          exact ⟨rfl, fun hfalse => absurd hl (by simp [hfalse])⟩
        · simp [prime_one, hl, hshow] at hpa
      · have hl' : p.is_link_page = false := by simpa using hl
        simp [prime_one, hl'] at hpa
        subst hpa
        exact ⟨rfl, fun _ => rfl⟩

/-- C5: every item emitted by `prime_menu_items` other than link-page
specials has its `href` resolved by URL style: the full/absolute URL
(`get_full_url` when the item has it, its `full_url` attribute
otherwise) when `use_absolute_page_urls` is set, and the item's
`relative_url` against the current site otherwise. -/
theorem primed_href_by_url_style (m : MenuState) (items : List RawItem)
    (pi : PrimedItem) (hmem : pi ∈ prime_menu_items m items) :
    (∀ it, pi.source = RawItem.menuItem it →
      pi.href =
        if m.opts.use_absolute_page_urls then
          (if it.has_get_full_url then it.get_full_url_v else it.full_url)
        else it.relative_url) ∧
    (∀ p, pi.source = RawItem.page p → p.is_link_page = false →
      pi.href =
        if m.opts.use_absolute_page_urls then
          (if p.has_get_full_url then p.get_full_url_v else p.full_url)
        else p.relative_url) := by
  obtain ⟨a, -, hpa⟩ := List.mem_filterMap.mp hmem
  obtain ⟨hsrc, hhref⟩ := prime_one_source_href m a pi hpa
  constructor
  · intro it hit
    have ha : a = RawItem.menuItem it := hsrc.symm.trans hit
    subst ha
    simpa [item_href] using hhref trivial
  · intro p hp hlp
    have ha : a = RawItem.page p := hsrc.symm.trans hp
    subst ha
    simpa [item_href] using hhref hlp

/-- The primed item produced from `repeatItem` at the sample state. -/
def primedSample : PrimedItem :=
  { source := RawItem.menuItem repeatItem
    text := "Repeat"
    href := "/p/"
    active_cls := some ""
    has_children_in_menu := some true }

/-- Witness for C5: at the sample state (relative URL style) the
primed repeating item's `href` is its `relative_url`. -/
theorem primed_href_by_url_style_witness :
    primedSample ∈ prime_menu_items sampleState [RawItem.menuItem repeatItem] ∧
    primedSample.href = repeatItem.relative_url :=
  ⟨by decide,
   ((primed_href_by_url_style sampleState [RawItem.menuItem repeatItem]
      primedSample (by decide)).1 repeatItem rfl).trans (by decide)⟩

/-- C3: with no hooks registered, the base page queryset holds exactly
the pages with `live = true`, `expired = false`, `show_in_menus =
true`; `pages_for_display` is drawn from it; every `top_level_items`
entry with a link page links a page satisfying the predicate; an item
whose link page fails it is excluded; items with no link page are
always kept. -/
theorem top_level_visibility (m : MenuWithItems)
    (hph : m.page_hooks = []) (hmh : m.menuitem_hooks = []) :
    (∀ p, p ∈ get_base_page_queryset m →
      p.live = true ∧ p.expired = false ∧ p.show_in_menus = true) ∧
    (∀ p, p ∈ m.all_pages → p.live = true → p.expired = false →
      p.show_in_menus = true → p ∈ get_base_page_queryset m) ∧
    (∀ p, p ∈ pages_for_display_list m →
      p.live = true ∧ p.expired = false ∧ p.show_in_menus = true) ∧
    (∀ it p, it ∈ top_level_items m → it.link_page = some p →
      p.live = true ∧ p.expired = false ∧ p.show_in_menus = true) ∧
    (∀ it p, it.link_page = some p →
      ¬(p.live = true ∧ p.expired = false ∧ p.show_in_menus = true) →
      it ∉ top_level_items m) ∧
    (∀ it, it ∈ m.items → it.link_page = none → it ∈ top_level_items m) := by
  have hbq : get_base_page_queryset m = m.all_pages.filter base_page_filter := by
    simp [get_base_page_queryset, hph]
  have h1 : ∀ p, p ∈ get_base_page_queryset m →
      p.live = true ∧ p.expired = false ∧ p.show_in_menus = true := by
    intro p hp
    rw [hbq] at hp
    have hf := (List.mem_filter.mp hp).2
    simp only [base_page_filter, Bool.and_eq_true, Bool.not_eq_true'] at hf
    exact ⟨hf.1.1, hf.1.2, hf.2⟩
  have h4 : ∀ it p, it ∈ top_level_items m → it.link_page = some p →
      p.live = true ∧ p.expired = false ∧ p.show_in_menus = true := by
    intro it p hit hlp
    simp only [top_level_items] at hit
    obtain ⟨it0, hit0, hf⟩ := List.mem_filterMap.mp hit
    cases h0 : it0.link_page with
    | none =>
        simp only [h0] at hf
        cases hf
        rw [h0] at hlp
        cases hlp
    | some lp =>
        simp only [h0] at hf
        cases hfind : List.find?
            (fun q => q.pk == lp.pk)
            ((get_base_page_queryset m).filter
              (fun p => (get_base_menuitem_queryset m).any
                (fun it => it.link_page.any (fun lp => lp.pk == p.pk)))) with
        | none => rw [hfind] at hf; cases hf
        | some q =>
            rw [hfind] at hf
            cases hf
            have hq : q ∈ (get_base_page_queryset m).filter
                (fun p => (get_base_menuitem_queryset m).any
                  (fun it => it.link_page.any (fun lp => lp.pk == p.pk))) :=
              List.mem_of_find?_eq_some hfind
            have hq' := (List.mem_filter.mp hq).1
            have hqp : q = p := by
              simpa using hlp
            rw [← hqp]
            exact h1 q hq'
  refine ⟨h1, ?_, ?_, h4, ?_, ?_⟩
  · intro p hp hlive hexp hshow
    rw [hbq]
    exact List.mem_filter.mpr ⟨hp, by simp [base_page_filter, hlive, hexp, hshow]⟩
  · intro p hp
    simp only [pages_for_display_list] at hp
    split at hp
    · cases hp
    · have hdec := (List.mem_filter.mp hp).2
      exact h1 p (of_decide_eq_true hdec)
  · intro it p hlp hnpred hit
    exact hnpred (h4 it p hit hlp)
  · intro it hmem hnone
    simp only [top_level_items]
    refine List.mem_filterMap.mpr ⟨it, ?_, by simp [hnone]⟩
    simp only [get_base_menuitem_queryset, hmh, List.foldl_nil]
    exact List.mem_filter.mpr ⟨hmem, by simp [hnone]⟩

/-- A visible page (passes the visibility predicate). -/
def visiblePage : Page :=
  { pk := 21, depth := 2, path := [1, 21], live := true, expired := false
    show_in_menus := true, title := "Good", menu_text_attr := none
    has_submenu_items_attr := false, has_submenu_items_result := false
    repeat_in_subnav := false, has_get_full_url := false, get_full_url_v := ""
    full_url := "", relative_url := "/good/", is_link_page := false
    link_show := false, extra_classes := "", link_menu_text := "" }

/-- A page failing the visibility predicate (`show_in_menus` off). -/
def hiddenPage : Page :=
  { visiblePage with
      pk := 22
      path := [1, 22]
      show_in_menus := false
      relative_url := "/hidden/" }

/-- A menu item for a custom URL (no link page). -/
def itemNoLink : MenuItemRec :=
  { link_page := none, link_url := "/external/", menu_text := "Ext"
    allow_subnav := false, has_get_full_url := false, get_full_url_v := ""
    full_url := "", relative_url := "/external/" }

/-- A menu item linking the visible page. -/
def itemVisible : MenuItemRec :=
  { itemNoLink with link_page := some visiblePage, link_url := "" }

/-- A menu item linking the hidden page. -/
def itemHidden : MenuItemRec :=
  { itemNoLink with link_page := some hiddenPage, link_url := "" }

/-- A concrete menu over a two-page table with no hooks. -/
def menuWithItemsSample : MenuWithItems :=
  { items := [itemNoLink, itemVisible, itemHidden]
    all_pages := [visiblePage, hiddenPage]
    page_hooks := []
    menuitem_hooks := []
    use_specific := 1
    max_levels := 2
    settings := sampleSettings }

/-- Witness for C3 at the concrete menu: the visible page passes, the
custom-URL item is kept, the hidden-page item is excluded. -/
theorem top_level_visibility_witness :
    (visiblePage.live = true ∧ visiblePage.expired = false ∧
      visiblePage.show_in_menus = true) ∧
    itemNoLink ∈ top_level_items menuWithItemsSample ∧
    itemHidden ∉ top_level_items menuWithItemsSample :=
  ⟨(top_level_visibility menuWithItemsSample rfl rfl).1 visiblePage (by decide),
   (top_level_visibility menuWithItemsSample rfl rfl).2.2.2.2.2 itemNoLink
     (by decide) rfl,
   (top_level_visibility menuWithItemsSample rfl rfl).2.2.2.2.1 itemHidden
     hiddenPage rfl (by decide)⟩

/-- The default site of the sample deployment. -/
def defaultSite : SiteRec :=
  { pk := 1, hostname := "example.com", is_default_site := true }

/-- Counterexample to C6 as stated: among the six names following the
hostname block, the fifth ("menus/flat/default.html") does not mention
the handle, and within the hostname block the fifth name
("menus/example.com/flat/menu.html") mentions the hostname but not the
handle either. -/
theorem flat_template_names_counterexample :
    (flat_menu_template_names sampleSettings (some defaultSite) "news").get? 11 =
      some "menus/flat/default.html" ∧
    strHasSub "news" "menus/flat/default.html" = false ∧
    (flat_menu_template_names sampleSettings (some defaultSite) "news").get? 4 =
      some "menus/example.com/flat/menu.html" ∧
    strHasSub "news" "menus/example.com/flat/menu.html" = false := by
  decide

/-- C6 (amended): with site-specific template directories enabled and
a current site present, `AbstractFlatMenu.get_template_names` returns
seven hostname-qualified names first (the first four also keyed by the
handle), then six names without the hostname (the first four keyed by
the handle, the last two generic flat-menu fallbacks), and the list
always ends with the configured default flat-menu template name. -/
theorem flat_template_names_order (s : AppSettings) (st : SiteRec)
    (handle : String) (hs1 : s.site_specific_template_dirs = true)
    (hs2 : s.default_flat_menu_template ≠ "") :
    flat_menu_template_names s (some st) handle =
      [ "menus/" ++ st.hostname ++ "/flat/" ++ handle ++ "/menu.html",
        "menus/" ++ st.hostname ++ "/flat/" ++ handle ++ ".html",
        "menus/" ++ st.hostname ++ "/" ++ handle ++ "/menu.html",
        "menus/" ++ st.hostname ++ "/" ++ handle ++ ".html",
        "menus/" ++ st.hostname ++ "/flat/menu.html",
        "menus/" ++ st.hostname ++ "/flat/default.html",
        "menus/" ++ st.hostname ++ "/flat_menu.html",
        "menus/flat/" ++ handle ++ "/menu.html",
        "menus/flat/" ++ handle ++ ".html",
        "menus/" ++ handle ++ "/menu.html",
        "menus/" ++ handle ++ ".html",
        "menus/flat/default.html",
        "menus/flat/menu.html",
        s.default_flat_menu_template ] ∧
    (∀ site', (flat_menu_template_names s site' handle).getLast? =
      some s.default_flat_menu_template) := by
  constructor
  · simp [flat_menu_template_names, hs1, hs2]
  · intro site'
    cases site' <;> simp [flat_menu_template_names, hs1, hs2]

/-- Witness for C6 (amended) at the sample settings and default
site. -/
theorem flat_template_names_order_witness :
    (flat_menu_template_names sampleSettings (some defaultSite) "news").getLast? =
      some "menus/flat_menu.html" :=
  ((flat_template_names_order sampleSettings defaultSite "news" rfl
    (by decide)).2 (some defaultSite)).trans (by decide)

/-- C7: `get_for_site` returns the first menu matching the handle for
the given site; failing that, with the fallback flag set and a
non-default site, the default site's menu with that handle; `none` in
every other case — and the `flat_menu` tag renders the empty string
when handed `none`.  Any returned menu matches the handle for the
given or the default site. -/
theorem get_for_site_cases (menus : List FlatMenuRec) (handle : String)
    (site : SiteRec) (fb : Bool) :
    (∀ m0,
      menus.find? (fun m => m.handle == handle && m.site.pk == site.pk) = some m0 →
      get_for_site menus handle site fb = some m0) ∧
    (menus.find? (fun m => m.handle == handle && m.site.pk == site.pk) = none →
      fb = true → site.is_default_site = false →
      get_for_site menus handle site fb =
        menus.find? (fun m => m.handle == handle && m.site.is_default_site)) ∧
    (menus.find? (fun m => m.handle == handle && m.site.pk == site.pk) = none →
      fb = false ∨ site.is_default_site = true →
      get_for_site menus handle site fb = none) ∧
    (∀ m0, get_for_site menus handle site fb = some m0 →
      m0.handle = handle ∧
        (m0.site.pk = site.pk ∨ m0.site.is_default_site = true)) ∧
    (get_for_site menus handle site fb = none →
      ∀ render_menu, flat_menu_tag menus handle site fb render_menu = "") := by
  refine ⟨?_, ?_, ?_, ?_, ?_⟩
  · intro m0 hfind
    simp [get_for_site, hfind]
  · intro hfind hfb hdef
    simp [get_for_site, hfind, hfb, hdef]
  · intro hfind hd
    rcases hd with h | h <;> simp [get_for_site, hfind, h]
  · intro m0 hres
    simp only [get_for_site] at hres
    split at hres
    · have hp := List.find?_some hres
      simp only [Bool.and_eq_true, beq_iff_eq] at hp
      exact ⟨hp.1, Or.inr hp.2⟩
    · have hp := List.find?_some hres
      simp only [Bool.and_eq_true, beq_iff_eq] at hp
      exact ⟨hp.1, Or.inl hp.2⟩
  · intro hnone render_menu
    simp [flat_menu_tag, hnone]

/-- A non-default site. -/
def otherSite : SiteRec :=
  { pk := 2, hostname := "a.example.com", is_default_site := false }

/-- The default site's footer menu. -/
def menuDefaultFooter : FlatMenuRec :=
  { site := defaultSite, handle := "footer", title := "Footer default" }

/-- The non-default site's footer menu. -/
def menuOtherFooter : FlatMenuRec :=
  { site := otherSite, handle := "footer", title := "Footer other" }

/-- Witness for C7: an exact match, a fallback to the default site's
menu, and the empty render when nothing matches. -/
theorem get_for_site_cases_witness :
    get_for_site [menuDefaultFooter, menuOtherFooter] "footer" otherSite false =
      some menuOtherFooter ∧
    get_for_site [menuDefaultFooter] "footer" otherSite true =
      some menuDefaultFooter ∧
    flat_menu_tag [menuDefaultFooter] "sidebar" otherSite false
      (fun _ => "RENDERED") = "" :=
  ⟨(get_for_site_cases [menuDefaultFooter, menuOtherFooter] "footer" otherSite
      false).1 menuOtherFooter (by decide),
   ((get_for_site_cases [menuDefaultFooter] "footer" otherSite true).2.1
      (by decide) rfl rfl).trans (by decide),
   (get_for_site_cases [menuDefaultFooter] "sidebar" otherSite false).2.2.2.2
     (((get_for_site_cases [menuDefaultFooter] "sidebar" otherSite false).2.2.1
        (by decide) (Or.inl rfl))) (fun _ => "RENDERED")⟩

end Wagtailmenus
